import Mathlib

/-
Verification of the BLiPS application entry point
(src/src-tauri/src/lib.rs).

The source is a Tauri bootstrap: run() builds a default application
builder, attaches an empty setup closure, registers three plugins
(http, geolocation, shell), hands the builder a context generated at
compile time from the bundled configuration, and starts the blocking
run loop, panicking with a fixed message if the run loop reports an
error.

The embedding records each framework call the entry point issues as an
element of a trace; the external framework's behaviour (the outcome of
the blocking run call) is a parameter of the model, since the framework
itself is not part of this repository.
-/

namespace BLiPS

/-- The three capability plugins registered in lib.rs lines 7 to 9. -/
inductive Plugin where
  | http
  | geolocation
  | shell
deriving DecidableEq

/-- The application context. In the source this is the expansion of the
compile-time macro generate_context, which reads only the bundled
configuration and takes no runtime input, so it is a single constant
value of the model. -/
inductive Context where
  | generated
deriving DecidableEq

/-- The context value handed to the run call (lib.rs line 10). -/
def generateContext : Context := Context.generated

/-- The type of setup hooks: for every application-handle state the
framework may pass, a hook yields the resulting state together with a
success or error result. -/
def SetupHook : Type 1 := {App : Type} → App → App × Except String Unit

/-- The setup closure of lib.rs lines 4 to 6: it ignores the handle,
changes nothing and returns Ok of unit. -/
def setupClosure : SetupHook := fun a => (a, Except.ok ())

/-- One framework call issued by the entry point. -/
inductive FrameworkCall : Type 1 where
  | builderDefault
  | setupCall (hook : SetupHook)
  | pluginCall (p : Plugin)
  | runCall (ctx : Context)

/-- The builder: in the model it is the trace of framework calls made
so far while assembling the application. -/
structure Builder : Type 1 where
  trace : List FrameworkCall

/-- Builder default construction (lib.rs line 3). -/
def Builder.default : Builder :=
  { trace := [FrameworkCall.builderDefault] }

/-- Builder setup registration (lib.rs line 4). -/
def Builder.setup (b : Builder) (hook : SetupHook) : Builder :=
  { trace := b.trace ++ [FrameworkCall.setupCall hook] }

/-- Builder plugin registration (lib.rs lines 7 to 9). -/
def Builder.plugin (b : Builder) (p : Plugin) : Builder :=
  { trace := b.trace ++ [FrameworkCall.pluginCall p] }

/-- The blocking run call (lib.rs line 10): it records the call with
its context argument and yields the framework's externally determined
outcome. -/
def Builder.run (b : Builder) (ctx : Context) (fw : Except String Unit) :
    List FrameworkCall × Except String Unit :=
  (b.trace ++ [FrameworkCall.runCall ctx], fw)

/-- How the process ends from the point of view of this code: either
run returns unit normally, or the process aborts in a panic carrying a
message. -/
inductive ProcOutcome where
  | normal
  | panicked (msg : String)
deriving DecidableEq

/-- The fixed diagnostic message of lib.rs line 11. -/
def expectMsg : String := "error while running tauri application"

/-- Rust Result.expect: on Ok the value is returned (unit here, so the
process continues normally); on Err the process panics with the given
message. -/
def expectOrPanic (r : Except String Unit) (msg : String) : ProcOutcome :=
  match r with
  | Except.ok _ => ProcOutcome.normal
  | Except.error _ => ProcOutcome.panicked msg

/-- The observable result of one invocation of run: the framework calls
issued, in order, and how the process ends. -/
structure RunResult : Type 1 where
  calls : List FrameworkCall
  outcome : ProcOutcome

/-- The entry point run of lib.rs lines 2 to 11, parameterised by the
outcome the external framework gives the blocking run call. -/
def run (fw : Except String Unit) : RunResult :=
  let b := ((((Builder.default).setup setupClosure).plugin
      Plugin.http).plugin Plugin.geolocation).plugin Plugin.shell
  let r := b.run generateContext fw
  { calls := r.1, outcome := expectOrPanic r.2 expectMsg }

/-- The plugins registered in a trace, in registration order. -/
def pluginsOf (calls : List FrameworkCall) : List Plugin :=
  calls.filterMap fun c =>
    match c with
    | FrameworkCall.pluginCall p => some p
    | _ => none

/-- The context arguments of the run calls in a trace, in order. -/
def runCtxArgs (calls : List FrameworkCall) : List Context :=
  calls.filterMap fun c =>
    match c with
    | FrameworkCall.runCall ctx => some ctx
    | _ => none

/-- Whether a framework call is the blocking run call. -/
def isRunCall : FrameworkCall → Bool := fun c =>
  match c with
  | FrameworkCall.runCall _ => true
  | _ => false

/-- Modelled from the spec: the desktop launcher binary (main.rs) is
not under src; the spec states the process entry point is a single
callable invoked by the platform launcher, desktop or mobile, so the
desktop launcher invokes this very run. -/
def desktopEntryPoint : Except String Unit → RunResult := run

/-- The mobile entry point: the mobile-entry-point attribute of lib.rs
line 1 is attached to run itself, so on mobile the launched function is
run. -/
def mobileEntryPoint : Except String Unit → RunResult := run

end BLiPS

namespace BLiPS

/-- C1: whatever the framework's run outcome, the builder receives
exactly the three plugin registrations http, geolocation, shell, in
that order, and all of them occur strictly before the run call. -/
theorem run_registers_exactly_three_plugins (fw : Except String Unit) :
    pluginsOf (run fw).calls = [Plugin.http, Plugin.geolocation, Plugin.shell] ∧
    pluginsOf ((run fw).calls.takeWhile (fun c => !(isRunCall c))) =
      [Plugin.http, Plugin.geolocation, Plugin.shell] := by
  exact ⟨rfl, rfl⟩

/-- C2: if the framework's run call reports an error, the process ends
in a panic carrying the fixed diagnostic message, and the run call is
the last framework call issued: no further call of this program
follows the failure. -/
theorem run_failure_is_fatal (e : String) :
    (run (Except.error e)).outcome = ProcOutcome.panicked expectMsg ∧
    (run (Except.error e)).calls.getLast? =
      some (FrameworkCall.runCall generateContext) := by
  exact ⟨rfl, rfl⟩

/-- C3: for every application handle the framework passes to it, the
setup closure returns the handle unchanged together with Ok of unit:
it always succeeds and mutates nothing. -/
theorem setupClosure_pure (App : Type) (a : App) :
    setupClosure a = (a, Except.ok ()) := rfl

/-- C4: the entry point issues exactly this linear sequence of
framework calls, in this order and nothing else: default builder
construction, setup registration of the empty closure, the three
plugin registrations, and the run call with the generated context. -/
theorem run_call_sequence (fw : Except String Unit) :
    (run fw).calls =
      [FrameworkCall.builderDefault,
       FrameworkCall.setupCall setupClosure,
       FrameworkCall.pluginCall Plugin.http,
       FrameworkCall.pluginCall Plugin.geolocation,
       FrameworkCall.pluginCall Plugin.shell,
       FrameworkCall.runCall generateContext] := rfl

/-- C5: run returns no value to its caller: for every framework
outcome, the only externally visible result is either a normal unit
return or a process-aborting panic with the fixed message. -/
theorem run_returns_unit_or_aborts (fw : Except String Unit) :
    (run fw).outcome = ProcOutcome.normal ∨
    (run fw).outcome = ProcOutcome.panicked expectMsg := by
  cases fw with
  | ok u => exact Or.inl rfl
  | error e => exact Or.inr rfl

/-- C6: the context handed to the run call is the statically generated
one in every invocation: the run call's context argument list is
exactly the generated context, and any two invocations issue identical
call traces, so the context never depends on runtime input. -/
theorem run_context_is_static (fw fw2 : Except String Unit) :
    runCtxArgs (run fw).calls = [generateContext] ∧
    (run fw).calls = (run fw2).calls := by
  exact ⟨rfl, rfl⟩

/-- C7: the run call is single-shot and terminal: exactly one run call
appears in the trace and it is the last framework call, so the entry
point does nothing of its own after handing the thread to the blocking
run loop, and implements no concurrency of its own (the whole model is
one sequential trace). -/
theorem run_call_single_shot_and_last (fw : Except String Unit) :
    ((run fw).calls.filter isRunCall).length = 1 ∧
    (run fw).calls.getLast? = some (FrameworkCall.runCall generateContext) := by
  exact ⟨rfl, rfl⟩

/-- C8: run panics exactly when the framework's run call errs: the
outcome is the panic with the fixed message if and only if the
framework returned an error, and is a normal unit return if and only
if the framework returned Ok. -/
theorem run_panics_iff_framework_errs (fw : Except String Unit) :
    ((run fw).outcome = ProcOutcome.panicked expectMsg ↔
      ∃ e, fw = Except.error e) ∧
    ((run fw).outcome = ProcOutcome.normal ↔ fw = Except.ok ()) := by
  cases fw with
  | ok u =>
    cases u
    constructor
    · simp [run, Builder.run, expectOrPanic]
    · simp [run, Builder.run, expectOrPanic]
  | error e =>
    constructor
    · simp [run, Builder.run, expectOrPanic]
    · simp [run, Builder.run, expectOrPanic]

/-- C9: run is deterministic with respect to everything outside the
framework: any two invocations issue the identical sequence of
framework calls with identical arguments, including the same setup
closure, the same plugins in the same order and the same generated
context. -/
theorem run_trace_deterministic (fw fw2 : Except String Unit) :
    (run fw).calls = (run fw2).calls := rfl

/-- C10: the desktop and mobile entry points are one and the same
function, so the launched behaviour is that of the single function run
on every platform. -/
theorem desktop_mobile_entry_points_equal :
    desktopEntryPoint = mobileEntryPoint := rfl

end BLiPS
